import Mathlib

/-!
Verification of the chat-engine orchestration layer of the maker-store-ai
repository (src/chat_engine.py). The engine appends the user message to an
in-memory conversation history, retrieves best-practice answers from a
vector-search data manager (any retrieval exception is swallowed and replaced
by an empty list), calls the completion chain once, appends the bot reply to
history and returns it.

Python exceptions are embedded as the error branch of Except String.
External collaborators (the data manager's find and the chain's run) are
fields of the engine, so every theorem quantifies over their behaviour.
-/

namespace MakerStoreAI

/-- A Python dict with string keys and string values, embedded as an
association list; lookup order follows the key-equality search. -/
abbrev PyDict := List (String × String)

/-- Embeds the Python subscript d[k] on a dict: the value at the key, or a
KeyError when the key is absent. -/
def dictGet (d : PyDict) (k : String) : Except String String :=
  match d.find? (fun p => p.1 == k) with
  | some p => Except.ok p.2
  | none => Except.error ("KeyError: " ++ k)

/-- Speaker role of a conversation turn. -/
inductive Role
  | user
  | bot
deriving DecidableEq, Repr

/-- One conversation turn: a role tag and the message text. -/
structure Turn where
  role : Role
  text : String
deriving DecidableEq, Repr

/-- Conversation history: an ordered, append-only sequence of turns. -/
structure ChatHistory where
  messages : List Turn
deriving DecidableEq, Repr

/-- Modelled from the spec: ChatHistory.add_message lives in
chat_history.py, which is not under src/. The spec says addMessage(role,
text) appends a Turn to the append-only ordered log, with no validation. -/
def ChatHistory.add_message (h : ChatHistory) (role : Role) (text : String) :
    ChatHistory :=
  ⟨h.messages ++ [⟨role, text⟩]⟩

/-- The engine state of src/chat_engine.py: the conversation history plus the
two external collaborators, embedded as function-valued fields. The data
manager's find returns question/answer dicts or raises; the chain's run
takes the message and the best-practice list and returns the model text or
raises. -/
structure ChatEngine where
  chat_history : ChatHistory
  data_manager_find : String → Except String (List PyDict)
  chain_run : String → List String → Except String String

/-- Embeds the list comprehension at src/chat_engine.py line 86:
[response["answer"] for response in similar_responses]. Evaluated left to
right; the first missing "answer" key raises, discarding all results. -/
def mapAnswers : List PyDict → Except String (List String)
  | [] => Except.ok []
  | response :: rest =>
      (dictGet response ("answer")).bind
        (fun a => (mapAnswers rest).map (fun as => a :: as))

/-- Embeds ChatEngine.generate_best_practice (src/chat_engine.py lines
73-90): try find(user_message) and map each record to its "answer" field;
on any exception return the empty list. The second component is the engine
state after the call (the method assigns to no field of self). -/
def ChatEngine.generate_best_practice (e : ChatEngine) (user_message : String) :
    List String × ChatEngine :=
  match (e.data_manager_find user_message).bind mapAnswers with
  | Except.ok answers => (answers, e)
  | Except.error _ => ([], e)

/-- Embeds ChatEngine.process_user_input (src/chat_engine.py lines 53-71):
append the user turn, compute the best practices, call the chain once, and on
success append the bot turn and return the response. The first component is
the returned value or the propagated exception; the second is the engine
state when the call ends, whether it raised or not. -/
def ChatEngine.process_user_input (e : ChatEngine) (message : String) :
    Except String String × ChatEngine :=
  let e1 : ChatEngine :=
    { e with chat_history := e.chat_history.add_message Role.user message }
  let bp := e1.generate_best_practice message
  match bp.2.chain_run message bp.1 with
  | Except.error err => (Except.error err, bp.2)
  | Except.ok bot_response =>
      (Except.ok bot_response,
        { bp.2 with
            chat_history := bp.2.chat_history.add_message Role.bot bot_response })

/-- Instrumented copy of process_user_input that additionally records, in
order, the (message, best_practice) argument pairs of every chain.run
invocation. The source has a single call site (line 68), so the trace has
one entry per completed-or-raised call. -/
def ChatEngine.process_user_inputTraced (e : ChatEngine) (message : String) :
    (Except String String × ChatEngine) × List (String × List String) :=
  let e1 : ChatEngine :=
    { e with chat_history := e.chat_history.add_message Role.user message }
  let bp := e1.generate_best_practice message
  match bp.2.chain_run message bp.1 with
  | Except.error err => ((Except.error err, bp.2), [(message, bp.1)])
  | Except.ok bot_response =>
      ((Except.ok bot_response,
        { bp.2 with
            chat_history := bp.2.chat_history.add_message Role.bot bot_response }),
       [(message, bp.1)])

/-- Outcome of engine construction: either the process exited (sys.exit) or
the engine is ready with the API key that was found. -/
inductive InitOutcome
  | exited (status : Nat) (stderr_output : String)
  | ready (api_key : String)
deriving DecidableEq, Repr

/-- Construction steps of ChatEngine.__init__ that run only after the API key
check succeeds (src/chat_engine.py lines 36-51). -/
def initSteps : List String :=
  ["ChatHistory", "QADataManager", "ChatOpenAI", "PromptTemplate", "LLMChain"]

/-- Embeds ChatEngine.__init__ (src/chat_engine.py lines 24-51): read
OPENAI_API_KEY from the environment; on KeyError write "API key not found."
to stderr and exit with status 1, running none of the later construction
steps (so no network activity); otherwise run them all. -/
def ChatEngine.initOutcome (env : PyDict) : InitOutcome × List String :=
  match dictGet env ("OPENAI_API_KEY") with
  | Except.ok key => (InitOutcome.ready key, initSteps)
  | Except.error _ => (InitOutcome.exited 1 "API key not found.", [])

/-- Modelled from the spec: PromptTemplate binding is code of langchain, not
of this repository. The spec says composition is a pure function of the
template string and the two named variables message and best_practice,
substituting named placeholders. -/
def bindTemplate (template : String) (message : String)
    (best_practice : List String) : String :=
  (template.replace ("\x7bmessage\x7d") message).replace
    ("\x7bbest_practice\x7d") (String.intercalate (", ") best_practice)

/-- The best-practice list as a function of the find collaborator only. -/
def bestPractices (find : String → Except String (List PyDict)) (m : String) :
    List String :=
  match (find m).bind mapAnswers with
  | Except.ok answers => answers
  | Except.error _ => []

/-- generate_best_practice returns the find-determined list and leaves the
engine unchanged. -/
theorem gbp_eq (e : ChatEngine) (m : String) :
    e.generate_best_practice m = (bestPractices e.data_manager_find m, e) := by
  unfold ChatEngine.generate_best_practice bestPractices
  cases (e.data_manager_find m).bind mapAnswers <;> rfl

/-- Closed form of process_user_input. -/
theorem process_eq (e : ChatEngine) (m : String) :
    e.process_user_input m =
      match e.chain_run m (bestPractices e.data_manager_find m) with
      | Except.error err =>
          (Except.error err,
            { e with chat_history := e.chat_history.add_message Role.user m })
      | Except.ok r =>
          (Except.ok r,
            { e with chat_history :=
                (e.chat_history.add_message Role.user m).add_message Role.bot r }) := by
  unfold ChatEngine.process_user_input
  simp only [gbp_eq]

/-- Closed form of the traced variant. -/
theorem processTraced_eq (e : ChatEngine) (m : String) :
    e.process_user_inputTraced m =
      (e.process_user_input m, [(m, bestPractices e.data_manager_find m)]) := by
  unfold ChatEngine.process_user_inputTraced
  rw [process_eq]
  simp only [gbp_eq]
  cases e.chain_run m (bestPractices e.data_manager_find m) <;> rfl

/-- A well-formed retrieval record with its two fields. -/
structure BestPracticeRecord where
  question : String
  answer : String
deriving DecidableEq, Repr

/-- The dict shape the retriever returns for a well-formed record. -/
def BestPracticeRecord.toDict (r : BestPracticeRecord) : PyDict :=
  [(("question"), r.question), (("answer"), r.answer)]

/-- Subscripting a well-formed record dict at "answer" yields its answer. -/
theorem dictGet_toDict (r : BestPracticeRecord) :
    dictGet r.toDict ("answer") = Except.ok r.answer := rfl

/-- Mapping the comprehension over well-formed record dicts raises nothing
and yields exactly the answers in order. -/
theorem mapAnswers_toDict (records : List BestPracticeRecord) :
    mapAnswers (records.map BestPracticeRecord.toDict) =
      Except.ok (records.map BestPracticeRecord.answer) := by
  induction records with
  | nil => rfl
  | cons r rs ih =>
      simp only [List.map_cons, mapAnswers, dictGet_toDict, ih]
      rfl

/-- If any record of the list lacks the "answer" key, the comprehension
raises a KeyError somewhere. -/
theorem mapAnswers_missing_key (ds : List PyDict) (d : PyDict)
    (hmem : d ∈ ds) (hmiss : d.find? (fun p => p.1 == ("answer")) = none) :
    ∃ err, mapAnswers ds = Except.error err := by
  induction ds with
  | nil => cases hmem
  | cons x rest ih =>
      cases hmem with
      | head =>
          refine ⟨("KeyError: ") ++ ("answer"), ?_⟩
          unfold mapAnswers dictGet
          rw [hmiss]
          rfl
      | tail _ hm =>
          obtain ⟨err, herr⟩ := ih hm
          unfold mapAnswers
          cases hd : dictGet x ("answer") with
          | error e2 => exact ⟨e2, rfl⟩
          | ok a => exact ⟨err, by rw [herr]; rfl⟩

/-- When find raises, the best-practice list is empty. -/
theorem bestPractices_find_fails (find : String → Except String (List PyDict))
    (m : String) (h : (find m).toOption = none) :
    bestPractices find m = [] := by
  unfold bestPractices
  cases hf : find m with
  | error err => rfl
  | ok v => rw [hf] at h; simp [Except.toOption] at h

/-- A retriever that always answers with one well-formed record. -/
def sampleFind : String → Except String (List PyDict) :=
  fun _ => Except.ok
    [[(("question"), ("How do I reset my password?")),
      (("answer"), ("Use the self-service portal"))]]

/-- A retriever that always raises a connection error. -/
def failFind : String → Except String (List PyDict) :=
  fun _ => Except.error ("connection error")

/-- A retriever whose second record lacks the "answer" key. -/
def malformedFind : String → Except String (List PyDict) :=
  fun _ => Except.ok
    [[(("question"), ("q1")), (("answer"), ("a1"))],
     [(("question"), ("q2"))]]

/-- A completion chain that always returns the same text. -/
def sampleRun : String → List String → Except String String :=
  fun _ _ => Except.ok ("Reset it via the self-service portal.")

/-- A completion chain whose model call always fails. -/
def failRun : String → List String → Except String String :=
  fun _ _ => Except.error ("model call failed")

/-- Engine with a fresh history whose collaborators both succeed. -/
def sampleEngine : ChatEngine := ⟨⟨[]⟩, sampleFind, sampleRun⟩

/-- Engine whose retriever raises but whose chain succeeds. -/
def degradedEngine : ChatEngine := ⟨⟨[]⟩, failFind, sampleRun⟩

/-- Engine whose chain raises. -/
def crashEngine : ChatEngine := ⟨⟨[]⟩, sampleFind, failRun⟩

/-- Engine whose retriever returns one malformed record among two. -/
def malformedEngine : ChatEngine := ⟨⟨[]⟩, malformedFind, sampleRun⟩

/-- C1: a completed process_user_input(m) call appends exactly two turns,
first the user turn with text m, then the bot turn with the returned
response, and this holds whichever way retrieval went; when retrieval fails
the bot turn was generated from an empty best-practice list passed to the
chain. -/
theorem process_user_input_appends_two_turns (e : ChatEngine) (m r : String)
    (h : (e.process_user_input m).1 = Except.ok r) :
    (e.process_user_input m).2.chat_history.messages =
      e.chat_history.messages ++ [⟨Role.user, m⟩, ⟨Role.bot, r⟩] ∧
    ((e.data_manager_find m).toOption = none →
      (e.process_user_inputTraced m).2 = [(m, [])]) := by
  rw [process_eq] at h ⊢
  rw [processTraced_eq, process_eq]
  cases hc : e.chain_run m (bestPractices e.data_manager_find m) with
  | error err =>
      rw [hc] at h
      exact Except.noConfusion h
  | ok r0 =>
      rw [hc] at h
      have hr : r0 = r := Except.ok.inj h
      subst hr
      constructor
      · show ((e.chat_history.add_message Role.user m).add_message Role.bot r0).messages =
          e.chat_history.messages ++ [⟨Role.user, m⟩, ⟨Role.bot, r0⟩]
        simp [ChatHistory.add_message]
      · intro hfail
        show [(m, bestPractices e.data_manager_find m)] = [(m, [])]
        rw [bestPractices_find_fails e.data_manager_find m hfail]

/-- C1 witness: on an engine whose retriever raises, the call completes,
appends the user and bot turns, and the chain was invoked with an empty
best-practice list. -/
theorem process_user_input_appends_two_turns_wit :
    (degradedEngine.process_user_input ("Hello")).1 =
      Except.ok ("Reset it via the self-service portal.") ∧
    ((degradedEngine.process_user_input ("Hello")).2.chat_history.messages =
      degradedEngine.chat_history.messages ++
        [⟨Role.user, ("Hello")⟩,
         ⟨Role.bot, ("Reset it via the self-service portal.")⟩] ∧
     ((degradedEngine.data_manager_find ("Hello")).toOption = none →
       (degradedEngine.process_user_inputTraced ("Hello")).2 =
         [(("Hello"), [])])) :=
  ⟨rfl, process_user_input_appends_two_turns degradedEngine ("Hello")
    ("Reset it via the self-service portal.") rfl⟩

/-- C2: when the retriever raises any exception for query m,
generate_best_practice(m) returns the empty list and leaves the engine as it
was; in particular no exception escapes, the call produces a value. -/
theorem generate_best_practice_swallows_retriever_error
    (e : ChatEngine) (m err : String)
    (h : e.data_manager_find m = Except.error err) :
    e.generate_best_practice m = ([], e) := by
  have hb : bestPractices e.data_manager_find m = [] := by
    unfold bestPractices
    rw [h]
    rfl
  rw [gbp_eq, hb]

/-- C2 witness: the connection-error retriever yields the empty list. -/
theorem generate_best_practice_swallows_retriever_error_wit :
    degradedEngine.generate_best_practice ("any query") = ([], degradedEngine) :=
  generate_best_practice_swallows_retriever_error degradedEngine
    ("any query") ("connection error") rfl

/-- C3: when the retriever returns an ordered list of well-formed
question/answer records, generate_best_practice returns exactly their answer
fields in the retriever's order, dropping the question fields. -/
theorem generate_best_practice_maps_answers_in_order
    (e : ChatEngine) (m : String) (records : List BestPracticeRecord)
    (h : e.data_manager_find m =
      Except.ok (records.map BestPracticeRecord.toDict)) :
    e.generate_best_practice m =
      (records.map BestPracticeRecord.answer, e) := by
  have hb : bestPractices e.data_manager_find m =
      records.map BestPracticeRecord.answer := by
    unfold bestPractices
    rw [h]
    show (match mapAnswers (records.map BestPracticeRecord.toDict) with
      | Except.ok answers => answers
      | Except.error _ => ([] : List String)) = _
    rw [mapAnswers_toDict]
  rw [gbp_eq, hb]

/-- C3 witness: two records yield their two answers in order. -/
theorem generate_best_practice_maps_answers_in_order_wit :
    (ChatEngine.mk ⟨[]⟩
        (fun _ => Except.ok
          ([⟨("q1"), ("a1")⟩, ⟨("q2"), ("a2")⟩].map BestPracticeRecord.toDict))
        sampleRun).generate_best_practice ("query") =
      ([("a1"), ("a2")],
       ChatEngine.mk ⟨[]⟩
        (fun _ => Except.ok
          ([⟨("q1"), ("a1")⟩, ⟨("q2"), ("a2")⟩].map BestPracticeRecord.toDict))
        sampleRun) :=
  generate_best_practice_maps_answers_in_order _ ("query")
    [⟨("q1"), ("a1")⟩, ⟨("q2"), ("a2")⟩] rfl

/-- C4: process_user_input(m) invokes the chain exactly once, with the
message m and the best-practice list computed by generate_best_practice(m);
the string the chain returns is both the returned value and the text of the
newly appended bot turn. -/
theorem completion_invoked_once_with_computed_arguments
    (e : ChatEngine) (m r : String)
    (h : e.chain_run m (e.generate_best_practice m).1 = Except.ok r) :
    (e.process_user_inputTraced m).2 = [(m, (e.generate_best_practice m).1)] ∧
    (e.process_user_input m).1 = Except.ok r ∧
    (e.process_user_input m).2.chat_history.messages =
      e.chat_history.messages ++ [⟨Role.user, m⟩, ⟨Role.bot, r⟩] := by
  have h2 : e.chain_run m (bestPractices e.data_manager_find m) = Except.ok r := by
    rw [gbp_eq] at h
    exact h
  rw [processTraced_eq, process_eq, gbp_eq, h2]
  refine ⟨rfl, rfl, ?_⟩
  show ((e.chat_history.add_message Role.user m).add_message Role.bot r).messages =
    e.chat_history.messages ++ [⟨Role.user, m⟩, ⟨Role.bot, r⟩]
  simp [ChatHistory.add_message]

/-- C4 witness: the sample engine calls the chain once with the retrieved
answer, returns its text and records it as the bot turn. -/
theorem completion_invoked_once_with_computed_arguments_wit :
    sampleEngine.chain_run ("How do I reset my password?")
      (sampleEngine.generate_best_practice ("How do I reset my password?")).1 =
      Except.ok ("Reset it via the self-service portal.") ∧
    ((sampleEngine.process_user_inputTraced ("How do I reset my password?")).2 =
      [(("How do I reset my password?"),
        (sampleEngine.generate_best_practice ("How do I reset my password?")).1)] ∧
     (sampleEngine.process_user_input ("How do I reset my password?")).1 =
      Except.ok ("Reset it via the self-service portal.") ∧
     (sampleEngine.process_user_input ("How do I reset my password?")).2.chat_history.messages =
      sampleEngine.chat_history.messages ++
        [⟨Role.user, ("How do I reset my password?")⟩,
         ⟨Role.bot, ("Reset it via the self-service portal.")⟩]) :=
  ⟨rfl, completion_invoked_once_with_computed_arguments sampleEngine
    ("How do I reset my password?") ("Reset it via the self-service portal.") rfl⟩

/-- C5: when the chain's run raises during process_user_input(m), the same
error is the call's outcome: no retry happens and no fallback response is
produced, the error reaches the orchestrator's caller unchanged. -/
theorem completion_error_propagates_to_caller (e : ChatEngine) (m err : String)
    (h : e.chain_run m (e.generate_best_practice m).1 = Except.error err) :
    (e.process_user_input m).1 = Except.error err := by
  rw [gbp_eq] at h
  rw [process_eq, h]

/-- C5 witness: the crashing chain's error is returned as the outcome. -/
theorem completion_error_propagates_to_caller_wit :
    crashEngine.chain_run ("Hi")
      (crashEngine.generate_best_practice ("Hi")).1 =
      Except.error ("model call failed") ∧
    (crashEngine.process_user_input ("Hi")).1 =
      Except.error ("model call failed") :=
  ⟨rfl, completion_error_propagates_to_caller crashEngine ("Hi")
    ("model call failed") rfl⟩

/-- C6: when OPENAI_API_KEY is absent from the environment, construction
exits with status 1, writes the diagnostic to stderr, and none of the later
construction steps (hence no network activity) runs. -/
theorem missing_api_key_is_fatal (env : PyDict)
    (h : env.find? (fun p => p.1 == ("OPENAI_API_KEY")) = none) :
    ChatEngine.initOutcome env =
      (InitOutcome.exited 1 ("API key not found."), []) := by
  unfold ChatEngine.initOutcome dictGet
  rw [h]

/-- C6 witness: an environment holding only an unrelated variable makes
construction exit with status 1 and the diagnostic, running nothing. -/
theorem missing_api_key_is_fatal_wit :
    ([(("HOME"), ("/root"))] : PyDict).find?
      (fun p => p.1 == ("OPENAI_API_KEY")) = none ∧
    ChatEngine.initOutcome [(("HOME"), ("/root"))] =
      (InitOutcome.exited 1 ("API key not found."), []) :=
  ⟨rfl, missing_api_key_is_fatal [(("HOME"), ("/root"))] rfl⟩

/-- C7: prompt composition is deterministic: two bindings of the fixed
template with identical (message, best_practice) pairs yield the same
composed prompt string. -/
theorem prompt_composition_deterministic
    (template m m2 : String) (bp bp2 : List String)
    (hm : m = m2) (hbp : bp = bp2) :
    bindTemplate template m bp = bindTemplate template m2 bp2 := by
  rw [hm, hbp]

/-- C7 witness: composing twice with the same pair gives the same prompt. -/
theorem prompt_composition_deterministic_wit :
    (("Hi") : String) = ("Hi") ∧ [("a")] = [("a")] ∧
    bindTemplate ("T: \x7bmessage\x7d | \x7bbest_practice\x7d")
        ("Hi") [("a")] =
      bindTemplate ("T: \x7bmessage\x7d | \x7bbest_practice\x7d")
        ("Hi") [("a")] :=
  ⟨rfl, rfl, prompt_composition_deterministic
    ("T: \x7bmessage\x7d | \x7bbest_practice\x7d") ("Hi") ("Hi")
    [("a")] [("a")] rfl rfl⟩

/-- C8: process_user_input is not atomic on completion failure: when the
chain raises, the user turn is already in history and stays there, so the
failed call leaves history exactly one turn longer, with no bot turn. -/
theorem failed_completion_leaves_lone_user_turn (e : ChatEngine) (m err : String)
    (h : e.chain_run m (e.generate_best_practice m).1 = Except.error err) :
    (e.process_user_input m).2.chat_history.messages =
      e.chat_history.messages ++ [⟨Role.user, m⟩] ∧
    (e.process_user_input m).1 = Except.error err := by
  have h2 : e.chain_run m (bestPractices e.data_manager_find m) = Except.error err := by
    rw [gbp_eq] at h
    exact h
  rw [process_eq, h2]
  exact ⟨by simp [ChatHistory.add_message], rfl⟩

/-- C8 witness: after the crashing chain raises, history holds exactly the
user turn and the error is the outcome. -/
theorem failed_completion_leaves_lone_user_turn_wit :
    crashEngine.chain_run ("Hello")
      (crashEngine.generate_best_practice ("Hello")).1 =
      Except.error ("model call failed") ∧
    ((crashEngine.process_user_input ("Hello")).2.chat_history.messages =
      crashEngine.chat_history.messages ++ [⟨Role.user, ("Hello")⟩] ∧
     (crashEngine.process_user_input ("Hello")).1 =
      Except.error ("model call failed")) :=
  ⟨rfl, failed_completion_leaves_lone_user_turn crashEngine ("Hello")
    ("model call failed") rfl⟩

/-- C9: generate_best_practice never modifies engine state: whatever the
retriever does, the engine after the call — history and every other field —
is the engine before it. -/
theorem generate_best_practice_leaves_engine_unchanged
    (e : ChatEngine) (m : String) :
    (e.generate_best_practice m).2 = e := by
  rw [gbp_eq]

/-- C10: one malformed retrieval record discards all results: when the
retriever returns a list in which some record lacks the "answer" key, the
KeyError raised while mapping is caught by the same handler and
generate_best_practice returns the empty list, not the well-formed records'
answers. -/
theorem malformed_record_discards_all_answers
    (e : ChatEngine) (m : String) (ds : List PyDict) (d : PyDict)
    (hfind : e.data_manager_find m = Except.ok ds)
    (hmem : d ∈ ds)
    (hmiss : d.find? (fun p => p.1 == ("answer")) = none) :
    e.generate_best_practice m = ([], e) := by
  obtain ⟨err, herr⟩ := mapAnswers_missing_key ds d hmem hmiss
  have hb : bestPractices e.data_manager_find m = [] := by
    unfold bestPractices
    rw [hfind]
    show (match mapAnswers ds with
      | Except.ok answers => answers
      | Except.error _ => ([] : List String)) = []
    rw [herr]
  rw [gbp_eq, hb]

/-- C10 witness: a retriever returning one good and one malformed record
yields the empty list, not ["a1"]. -/
theorem malformed_record_discards_all_answers_wit :
    malformedEngine.data_manager_find ("q") =
      Except.ok [[(("question"), ("q1")), (("answer"), ("a1"))],
                 [(("question"), ("q2"))]] ∧
    [(("question"), ("q2"))] ∈
      [[(("question"), ("q1")), (("answer"), ("a1"))], [(("question"), ("q2"))]] ∧
    ([(("question"), ("q2"))] : PyDict).find?
      (fun p => p.1 == ("answer")) = none ∧
    malformedEngine.generate_best_practice ("q") = ([], malformedEngine) :=
  ⟨rfl, List.Mem.tail _ (List.Mem.head _), rfl,
   malformed_record_discards_all_answers malformedEngine ("q")
     [[(("question"), ("q1")), (("answer"), ("a1"))], [(("question"), ("q2"))]]
     [(("question"), ("q2"))] rfl (List.Mem.tail _ (List.Mem.head _)) rfl⟩

end MakerStoreAI
